import Mathlib

/-! # Fixed-arity node shapes and kind-tagged casts (`structure.hpp`)

A shallow embedding of `src/structure.hpp` and theorems about it.

Modelling conventions.

* A child reference (`T*`, `T const*`) is a value of an arbitrary type `P` of
  pointer values.  Constness is a static property of the C++ types and is not
  part of a pointer value; the `const` and non-`const` overloads of a member
  are embedded as two definitions, suffixed `_const` and `_mut`.
* `<cassert>` is included by `support.hpp` and `NDEBUG` is not defined by the
  sources, so `assert(e)` is live: a call either returns a value or stops at
  one of the three assertions of the header.  This is the type `Outcome`.
* `std::array<T*, N>` is a sequence of exactly `N` pointer values
  (`std_array`), `std::initializer_list<T*>` is a `List P`, and a `std::span`
  over `count` elements starting at `p` is the list of those elements.
* A member function of a class template is instantiated where it is called.
  A body whose `return` statement the language rejects makes every program
  that calls it ill-formed: this is the type `Instantiated`.
* Template parameters (`N`, the target type `T` of a cast) are ordinary
  arguments.
-/

namespace Structure

/-! ## Assertions -/

/-- The three `assert` expressions occurring in `structure.hpp`. -/
inductive Assertion where
  /-- Expression `list.size() == N`, in the constructor of `array`. -/
  | list_size_eq_N
  /-- Expression `n < N`, in both overloads of `array::child`. -/
  | n_lt_N
  /-- Expression `is<T>(u)`, in both overloads of `cast`. -/
  | is_T_u
  deriving DecidableEq, Repr

/-- Result of running a function whose body contains an `assert`: it either
returns a value, or the named assertion fails and the program stops. -/
inductive Outcome (α : Type) where
  | returned (value : α)
  | assert_failed (which : Assertion)
  deriving DecidableEq, Repr

/-! ## Standard-library pieces used by the header -/

/-- Type `std::array<T*, N>`: exactly `N` pointer values. -/
structure std_array (P : Type) (N : Nat) where
  elems : List P
  size_eq : elems.length = N
  deriving DecidableEq, Repr

/-- Assignment `a[i] = x` (also `*(a.begin() + i) = x`).  Positions `i ≥ N`
are outside the object; no caller in this file stores there, and the model
leaves the array unchanged in that case. -/
def std_array.store {P : Type} {N : Nat} (a : std_array P N) (i : Nat) (x : P) :
    std_array P N :=
  ⟨a.elems.set i x, by rw [List.length_set]; exact a.size_eq⟩

/-- Read `a[n]` of `std::array` for an index inside the array. -/
def std_array.subscript {P : Type} {N : Nat} (a : std_array P N) (n : Nat) (h : n < N) : P :=
  a.elems.get ⟨n, by rw [a.size_eq]; exact h⟩

/-- Call `std::copy(first, last, d_first)`: the elements of the source range
are assigned, front to back, to consecutive positions of the destination,
starting at offset `d_first` of `dest`. -/
def std_copy {P : Type} {N : Nat} (src : List P) (dest : std_array P N) (d_first : Nat) :
    std_array P N :=
  match src with
  | [] => dest
  | x :: rest => std_copy rest (dest.store d_first x) (d_first + 1)

/-- Value `std::span<_, N>{data, count}`: the `count` elements starting at `data`. -/
def span_of {P : Type} (data : List P) (count : Nat) : List P :=
  data.take count

/-- Constant `std::dynamic_extent`, declared `static_cast<size_t>(-1)` in
`<span>`; `size_t` has 64 bits. -/
def dynamic_extent : Nat := 2 ^ 64 - 1

/-- Reasons for which the language rejects a statement of the header. -/
inductive IllFormed where
  /-- Copy-list-initialization (`return {...};`) selected a constructor that
  is declared `explicit`. -/
  | explicit_ctor_in_copy_list_init
  deriving DecidableEq, Repr

/-- Result of calling a member function of a class template: its body is
either rejected when it is instantiated, so that no program calling it
compiles, or accepted, and the call has a value. -/
inductive Instantiated (α : Type) where
  | well_formed (value : α)
  | ill_formed (why : IllFormed)
  deriving DecidableEq, Repr

/-- The explicit-specifier of the constructor `span(It first, size_type count)`
of `std::span<_, extent>`, declared in `<span>` as
`explicit(extent != dynamic_extent)`. -/
def span_ptr_count_explicit (extent : Nat) : Bool :=
  decide (extent ≠ dynamic_extent)

/-- Statement `return {data, count};` in a function whose return type is
`std::span<_, extent>`.  This copy-list-initializes the result; the
constructor selected for a pointer and a count is `span(It, size_type)`, and
copy-list-initialization that selects an explicit constructor is ill-formed.
When the constructor is not explicit the result views `count` elements
starting at `data`. -/
def return_braced_span {P : Type} (extent : Nat) (data : List P) (count : Nat) :
    Instantiated (List P) :=
  if span_ptr_count_explicit extent then
    .ill_formed .explicit_ctor_in_copy_list_init
  else
    .well_formed (span_of data count)

/-! ## `array<T, N>` -/

/-- Class template `array<T, N>`: its only data member is `m_kids`. -/
structure array (P : Type) (N : Nat) where
  m_kids : std_array P N
  deriving DecidableEq, Repr

/-- Static member `array<T, N>::arity_value`. -/
def array.arity_value (N : Nat) : Nat := N

/-- Constructor `array(std::initializer_list<T*> list)`.

`m_kids` has no initializer, so when the body starts it holds indeterminate
pointer values: they are the argument `storage`.  The body asserts
`list.size() == N` and then copies the list to `m_kids.begin()`. -/
def array.ctor {P : Type} (N : Nat) (storage : std_array P N) (list : List P) :
    Outcome (array P N) :=
  if list.length = N then
    .returned ⟨std_copy list storage 0⟩
  else
    .assert_failed .list_size_eq_N

/-- Member `arity() const`: `return N;`. -/
def array.arity {P : Type} {N : Nat} (_a : array P N) : Nat := N

/-- Member `std::span<T const* const, N> children() const`:
`return {m_kids.data(), N};`. -/
def array.children_const {P : Type} {N : Nat} (a : array P N) : Instantiated (List P) :=
  return_braced_span N a.m_kids.elems N

/-- Member `std::span<T*, N> children()` (non-const):
`return {m_kids.data(), N};`. -/
def array.children_mut {P : Type} {N : Nat} (a : array P N) : Instantiated (List P) :=
  return_braced_span N a.m_kids.elems N

/-- Member `child(std::size_t n) const`: `assert(n < N); return m_kids[n];`. -/
def array.child_const {P : Type} {N : Nat} (a : array P N) (n : Nat) : Outcome P :=
  if h : n < N then
    .returned (a.m_kids.subscript n h)
  else
    .assert_failed .n_lt_N

/-- Member `child(std::size_t n)` (non-const): `assert(n < N); return m_kids[n];`. -/
def array.child_mut {P : Type} {N : Nat} (a : array P N) (n : Nat) : Outcome P :=
  if h : n < N then
    .returned (a.m_kids.subscript n h)
  else
    .assert_failed .n_lt_N

/-! ## `nullary<T>` -/

/-- Class template `nullary<T>`: it has no data member. -/
structure nullary (P : Type) where
  deriving DecidableEq, Repr

/-- Static member `nullary<T>::arity_value`. -/
def nullary.arity_value : Nat := 0

/-- Member `arity() const`: `return 0;`. -/
def nullary.arity {P : Type} (_s : nullary P) : Nat := 0

/-- Member `children() const`: `return {};`, the value-initialised span of
static extent 0, which views no element. -/
def nullary.children_const {P : Type} (_s : nullary P) : List P := []

/-- Member `children()` (non-const): `return {};`. -/
def nullary.children_mut {P : Type} (_s : nullary P) : List P := []

/-! ## `unary<T>`, `binary<T>`, `ternary<T>` -/

/-- Class template `unary<T>`, derived from `array<T, 1>`. -/
structure unary (P : Type) extends array P 1

/-- Constructor `unary(T* t1) : array<T, 1>({t1})`; `storage` is the
indeterminate initial content of the base's `m_kids`. -/
def unary.ctor {P : Type} (storage : std_array P 1) (t1 : P) : Outcome (unary P) :=
  match array.ctor 1 storage [t1] with
  | .returned base => .returned ⟨base⟩
  | .assert_failed which => .assert_failed which

/-- Member `child() const` of `unary`: `return this->child(0);`.  The
one-argument `child` is the inherited one (`using array<T, 1>::child;`). -/
def unary.child_const {P : Type} (u : unary P) : Outcome P :=
  u.toarray.child_const 0

/-- Member `child()` (non-const) of `unary`: `return this->child(0);`. -/
def unary.child_mut {P : Type} (u : unary P) : Outcome P :=
  u.toarray.child_mut 0

/-- Class template `binary<T>`, derived from `array<T, 2>`. -/
structure binary (P : Type) extends array P 2

/-- Constructor `binary(T* t1, T* t2) : array<T, 2>({t1, t2})`. -/
def binary.ctor {P : Type} (storage : std_array P 2) (t1 t2 : P) : Outcome (binary P) :=
  match array.ctor 2 storage [t1, t2] with
  | .returned base => .returned ⟨base⟩
  | .assert_failed which => .assert_failed which

/-- Class template `ternary<T>`, derived from `array<T, 3>`. -/
structure ternary (P : Type) extends array P 3

/-- Constructor `ternary(T* t1, T* t2, T* t3) : array<T, 3>({t1, t2, t3})`. -/
def ternary.ctor {P : Type} (storage : std_array P 3) (t1 t2 t3 : P) : Outcome (ternary P) :=
  match array.ctor 3 storage [t1, t2, t3] with
  | .returned base => .returned ⟨base⟩
  | .assert_failed which => .assert_failed which

/-! ## Kinding -/

/-- Static member `kind_of<K>::this_kind`, declared `= K`. -/
def kind_of.this_kind {κ : Type} (K : κ) : κ := K

/-! ## Node families

`is`, `cast` and `maybe_cast` are templates over a target type `T`, of which
they use `T::this_kind`, and over the pointee type `U` of their argument, of
which they use `u->kind()`.  The header declares no such types: they belong
to the node family that instantiates it.  What the templates use of a family
is taken as data. -/

/-- A concrete node type of a family, as the header sees it: a class that
derives from `kind_of<K>` and from one shape of arity `arity_value`
(`array<Fam, arity_value>`, hence also `unary`, `binary`, `ternary`).
`type_id` tells types apart: the header does not stop two types from
declaring the same `K`. -/
structure NodeType (κ : Type) where
  type_id : Nat
  K : κ
  arity_value : Nat
  deriving DecidableEq, Repr

/-- Constant `T::this_kind`, inherited from the base `kind_of<K>`. -/
def NodeType.this_kind {κ : Type} (T : NodeType κ) : κ :=
  kind_of.this_kind T.K

/-- A node object, reached through a valid non-null pointer `U*` or
`U const*` to the common node interface.  `dyn` is the concrete type it was
constructed as, `kind` is the value its `kind()` returns, and `shape` is its
shape subobject.  Nothing in the header relates `kind` to `dyn.this_kind`. -/
structure Node (κ P : Type) where
  dyn : NodeType κ
  kind : κ
  shape : array P dyn.arity_value

/-- A pointer whose static type is (pointer to) the concrete type
`static_type`, pointing at the node `target`. -/
structure TypedRef (κ P : Type) where
  static_type : NodeType κ
  target : Node κ P

/-- Conversion `static_cast<T*>(u)` / `static_cast<T const*>(u)`: a pointer of
static type `T` to the object `u` points at.  C++ defines the conversion only
when that object is a `T`; otherwise the behaviour is undefined and the
pointer need not designate the node.  Statements about what the result points
at are made only where the concrete type of the node is `T`. -/
def static_cast {κ P : Type} (T : NodeType κ) (u : Node κ P) : TypedRef κ P :=
  ⟨T, u⟩

/-- Call `r->arity()` through a typed pointer.  Member functions of the
shapes are not virtual: the function called is `arity` of the static type,
whose body `return N;` does not read the object. -/
def TypedRef.arity {κ P : Type} (r : TypedRef κ P) : Nat :=
  r.static_type.arity_value

/-- The shape subobject reached through a typed pointer whose static type is
the concrete type of the object it points at. -/
def TypedRef.shape {κ P : Type} (r : TypedRef κ P) (h : r.target.dyn = r.static_type) :
    array P r.static_type.arity_value :=
  h ▸ r.target.shape

/-! ## Testing and casting -/

/-- Function template `is<T>(U const* u)`: `return u->kind() == T::this_kind;`. -/
def is {κ P : Type} [DecidableEq κ] (T : NodeType κ) (u : Node κ P) : Bool :=
  decide (u.kind = T.this_kind)

/-- Overload `cast<T>(U const* u)`:
`assert(is<T>(u)); return static_cast<T const*>(u);`. -/
def cast_const {κ P : Type} [DecidableEq κ] (T : NodeType κ) (u : Node κ P) :
    Outcome (TypedRef κ P) :=
  if is T u then
    .returned (static_cast T u)
  else
    .assert_failed .is_T_u

/-- Overload `cast<T>(U* u)`: `assert(is<T>(u)); return static_cast<T*>(u);`. -/
def cast_mut {κ P : Type} [DecidableEq κ] (T : NodeType κ) (u : Node κ P) :
    Outcome (TypedRef κ P) :=
  if is T u then
    .returned (static_cast T u)
  else
    .assert_failed .is_T_u

/-- Overload `maybe_cast<T>(U const* u)`:
`if (is<T>(u)) return static_cast<T const*>(u); return nullptr;`.
The null pointer is `none`. -/
def maybe_cast_const {κ P : Type} [DecidableEq κ] (T : NodeType κ) (u : Node κ P) :
    Option (TypedRef κ P) :=
  if is T u then
    some (static_cast T u)
  else
    none

/-- Overload `maybe_cast<T>(U* u)`:
`if (is<T>(u)) return static_cast<T*>(u); return nullptr;`. -/
def maybe_cast_mut {κ P : Type} [DecidableEq κ] (T : NodeType κ) (u : Node κ P) :
    Option (TypedRef κ P) :=
  if is T u then
    some (static_cast T u)
  else
    none

/-! ## Concepts -/

/-- What the concepts use of a type `T`: whether the expression
`T::arity_value` is well-formed, and its value when it is (`some v`); a type
that declares no such member is `none`. -/
structure TypeDecl where
  arity_value : Option Nat
  deriving DecidableEq, Repr

/-- Concept `array_tree<T>`: `requires(T* p) { T::arity_value; }`. -/
def array_tree (T : TypeDecl) : Bool :=
  T.arity_value.isSome

/-- Concept `array_k_tree<T, N>`: `array_tree<T> && (T::arity_value == N)`.
The second conjunct is not satisfied when `T::arity_value` is ill-formed. -/
def array_k_tree (T : TypeDecl) (N : Nat) : Bool :=
  array_tree T &&
    (match T.arity_value with
     | some v => decide (v = N)
     | none => false)

/-- Concept `leaf_tree<T>`: `array_k_tree<T, 0>`. -/
def leaf_tree (T : TypeDecl) : Bool :=
  array_k_tree T 0

/-- The type `nullary<T>` as seen by the concepts. -/
def nullary.decl : TypeDecl := ⟨some nullary.arity_value⟩

/-- The type `array<T, N>` as seen by the concepts. -/
def array.decl (N : Nat) : TypeDecl := ⟨some (array.arity_value N)⟩

/-- The type `unary<T>` as seen by the concepts: it declares no `arity_value`
of its own and inherits that of its base `array<T, 1>`. -/
def unary.decl : TypeDecl := array.decl 1

/-- The type `binary<T>` as seen by the concepts (base `array<T, 2>`). -/
def binary.decl : TypeDecl := array.decl 2

/-- The type `ternary<T>` as seen by the concepts (base `array<T, 3>`). -/
def ternary.decl : TypeDecl := array.decl 3

/-! ## Concrete binary and ternary node types -/

/-- A concrete node type `struct B : Fam, kind_of<K>, binary<Fam>`. -/
def binary_type {κ : Type} (type_id : Nat) (K : κ) : NodeType κ :=
  ⟨type_id, K, array.arity_value 2⟩

/-- A concrete node type `struct X : Fam, kind_of<K>, ternary<Fam>`. -/
def ternary_type {κ : Type} (type_id : Nat) (K : κ) : NodeType κ :=
  ⟨type_id, K, array.arity_value 3⟩

/-- Modelled from the spec: the member `kind()` of a concrete node type is
written by the node family and is missing from the header; by the spec (kind
tag mixin) it "must return this constant", the `this_kind` of the type.
This is the node of concrete type `ternary_type type_id K` whose shape
subobject is `t`, held through the common node interface. -/
def ternary_node {κ P : Type} (type_id : Nat) (K : κ) (t : ternary P) : Node κ P :=
  ⟨ternary_type type_id K, (ternary_type type_id K).this_kind, t.toarray⟩

/-! ## A small family used in examples

Kinds and pointer values are natural numbers. -/

/-- A binary node type declaring kind `0`. -/
def ex_Binary : NodeType Nat := ⟨2, 0, 2⟩

/-- A ternary node type declaring kind `1`. -/
def ex_Ternary1 : NodeType Nat := ⟨4, 1, 3⟩

/-- A node of concrete type `ex_Ternary1` with children `11, 12, 13`, whose
`kind()` returns its declared kind `1`. -/
def ex_ternary1_node : Node Nat Nat := ⟨ex_Ternary1, 1, ⟨⟨[11, 12, 13], rfl⟩⟩⟩

/-! ## Lemmas on the copy loop -/

theorem std_copy_elems {P : Type} {N : Nat} (src : List P) :
    ∀ (dest : std_array P N) (k : Nat), k + src.length ≤ N →
      (std_copy src dest k).elems
        = dest.elems.take k ++ src ++ dest.elems.drop (k + src.length) := by
  induction src with
  | nil =>
    intro dest k _
    simp [std_copy]
  | cons x rest ih =>
    intro dest k hk
    have hlen : dest.elems.length = N := dest.size_eq
    simp only [List.length_cons] at hk
    have hk1 : k < dest.elems.length := by omega
    rw [std_copy, ih (dest.store k x) (k + 1) (by omega)]
    simp only [std_array.store, List.length_cons]
    rw [List.drop_set_of_lt x dest.elems (by omega : k < k + 1 + rest.length)]
    have h2 : List.take (k + 1) (dest.elems.set k x) = List.take k dest.elems ++ [x] := by
      rw [List.set_eq_take_append_cons_drop, if_pos hk1]
      have hl : (List.take k dest.elems).length = k := by
        rw [List.length_take]; omega
      rw [List.take_append_eq_append_take, hl]
      simp
    rw [h2]
    have h3 : k + 1 + rest.length = k + (rest.length + 1) := by omega
    rw [h3]
    simp

theorem std_copy_full {P : Type} {N : Nat} (list : List P) (storage : std_array P N)
    (h : list.length = N) : (std_copy list storage 0).elems = list := by
  rw [std_copy_elems list storage 0 (by omega)]
  have : storage.elems.length = N := storage.size_eq
  simp [h, ← this]

theorem return_braced_span_static {P : Type} (extent : Nat) (h : extent ≠ dynamic_extent)
    (data : List P) (count : Nat) :
    return_braced_span extent data count = .ill_formed .explicit_ctor_in_copy_list_init := by
  unfold return_braced_span span_ptr_count_explicit
  rw [if_pos (decide_eq_true h)]

theorem small_ne_dynamic_extent (N : Nat) (h : N ≤ 3) : N ≠ dynamic_extent := by
  unfold dynamic_extent
  omega

theorem array_ctor_returned {P : Type} (N : Nat) (storage : std_array P N) (list : List P)
    (h : list.length = N) :
    array.ctor N storage list = .returned ⟨std_copy list storage 0⟩ := by
  unfold array.ctor
  rw [if_pos h]

theorem array_child_const_lt {P : Type} {N : Nat} (a : array P N) (i : Nat) (h : i < N) :
    a.child_const i = .returned (a.m_kids.subscript i h) := by
  unfold array.child_const
  rw [dif_pos h]

theorem array_child_mut_lt {P : Type} {N : Nat} (a : array P N) (i : Nat) (h : i < N) :
    a.child_mut i = .returned (a.m_kids.subscript i h) := by
  unfold array.child_mut
  rw [dif_pos h]

theorem subscript_eq_getElem? {P : Type} {N : Nat} (a : std_array P N) (i : Nat) (h : i < N) :
    a.elems[i]? = some (a.subscript i h) := by
  unfold std_array.subscript
  rw [List.get_eq_getElem]
  exact List.getElem?_eq_getElem _

theorem subscript_of_elems {P : Type} {N : Nat} (a : std_array P N) (i : Nat) (h : i < N)
    (x : P) (hx : a.elems[i]? = some x) : a.subscript i h = x := by
  rw [subscript_eq_getElem? a i h] at hx
  exact Option.some.inj hx

/-! ## The shapes -/

/-- C1, as the code behaves: a list of exactly `N` references `r_0 .. r_(N-1)`
passes the assertion of the constructor and is copied to `m_kids` in order,
but `children()` cannot be called on the resulting shape: in both overloads
`return {m_kids.data(), N};` copy-list-initializes a span of static extent
through an explicit constructor, which is ill-formed.  The view of length `N`
with `i`-th element `r_i` that the claim describes is not delivered. -/
theorem array_children_ill_formed {P : Type} (N : Nat) (hN : N ≠ dynamic_extent)
    (storage : std_array P N) (list : List P) (hlen : list.length = N) :
    ∃ a : array P N, array.ctor N storage list = .returned a
      ∧ a.m_kids.elems = list
      ∧ a.children_const = .ill_formed .explicit_ctor_in_copy_list_init
      ∧ a.children_mut = .ill_formed .explicit_ctor_in_copy_list_init :=
  ⟨⟨std_copy list storage 0⟩, array_ctor_returned N storage list hlen,
    std_copy_full list storage hlen,
    return_braced_span_static N hN _ N, return_braced_span_static N hN _ N⟩

/-- C1 at the failing input: `array<T, 3>` built from `[10, 20, 30]` over
storage `[7, 8, 9]`, then `children()`. -/
theorem array_children_ill_formed_witness :
    3 ≠ dynamic_extent ∧ ([10, 20, 30] : List Nat).length = 3
      ∧ ∃ a : array Nat 3, array.ctor 3 ⟨[7, 8, 9], rfl⟩ [10, 20, 30] = .returned a
        ∧ a.m_kids.elems = [10, 20, 30]
        ∧ a.children_const = .ill_formed .explicit_ctor_in_copy_list_init
        ∧ a.children_mut = .ill_formed .explicit_ctor_in_copy_list_init :=
  ⟨small_ne_dynamic_extent 3 (by decide), rfl,
   array_children_ill_formed 3 (small_ne_dynamic_extent 3 (by decide)) ⟨[7, 8, 9], rfl⟩
     [10, 20, 30] rfl⟩

/-- C6: the constructor of `array<T, N>` fails its assertion exactly when the
length of the list differs from `N`, and returns a shape exactly when the
length is `N`: a shorter or longer list never yields a shape. -/
theorem array_ctor_fails_iff {P : Type} (N : Nat) (storage : std_array P N)
    (list : List P) :
    (array.ctor N storage list = .assert_failed .list_size_eq_N ↔ list.length ≠ N)
      ∧ ((∃ a, array.ctor N storage list = .returned a) ↔ list.length = N) := by
  unfold array.ctor
  by_cases h : list.length = N
  · simp [h]
  · simp [h]

/-- C7: constructing `array<T, N>` with exactly `N` references succeeds, and
`arity()` of the result equals `arity_value`, which equals `N`. -/
theorem array_arity_of_ctor {P : Type} (N : Nat) (storage : std_array P N)
    (list : List P) (hlen : list.length = N) :
    ∃ a : array P N, array.ctor N storage list = .returned a
      ∧ a.arity = array.arity_value N ∧ array.arity_value N = N ∧ a.arity = N :=
  ⟨⟨std_copy list storage 0⟩, array_ctor_returned N storage list hlen, rfl, rfl, rfl⟩

/-- Instance of C7: `array<T, 2>` built from `[10, 20]`. -/
theorem array_arity_of_ctor_witness :
    ([10, 20] : List Nat).length = 2
      ∧ ∃ a : array Nat 2, array.ctor 2 ⟨[0, 0], rfl⟩ [10, 20] = .returned a
        ∧ a.arity = array.arity_value 2 ∧ array.arity_value 2 = 2 ∧ a.arity = 2 :=
  ⟨rfl, array_arity_of_ctor 2 ⟨[0, 0], rfl⟩ [10, 20] rfl⟩

/-- C8, as the code behaves: for every `array<T, N>` and index `i`, `child(i)`
(either overload) returns a reference if and only if `i < N`, and it is then
the reference stored in `m_kids[i]`; for `i ≥ N` it fails the assertion
`n < N`.  It cannot be compared with the `i`-th element of `children()`:
`children()` is ill-formed on every such shape, in both overloads. -/
theorem array_child_bounds {P : Type} {N : Nat} (a : array P N) (i : Nat) :
    ((∃ r, a.child_const i = .returned r) ↔ i < N)
      ∧ ((∃ r, a.child_mut i = .returned r) ↔ i < N)
      ∧ (i < N → ∃ r, a.m_kids.elems[i]? = some r
          ∧ a.child_const i = .returned r ∧ a.child_mut i = .returned r)
      ∧ (N ≤ i → a.child_const i = .assert_failed .n_lt_N
          ∧ a.child_mut i = .assert_failed .n_lt_N)
      ∧ (N ≠ dynamic_extent →
          a.children_const = .ill_formed .explicit_ctor_in_copy_list_init
            ∧ a.children_mut = .ill_formed .explicit_ctor_in_copy_list_init) := by
  have hill : N ≠ dynamic_extent →
      a.children_const = .ill_formed .explicit_ctor_in_copy_list_init
        ∧ a.children_mut = .ill_formed .explicit_ctor_in_copy_list_init :=
    fun hN => ⟨return_braced_span_static N hN _ N, return_braced_span_static N hN _ N⟩
  by_cases h : i < N
  · have hc : a.child_const i = .returned (a.m_kids.subscript i h) :=
      array_child_const_lt a i h
    have hm : a.child_mut i = .returned (a.m_kids.subscript i h) :=
      array_child_mut_lt a i h
    refine ⟨⟨fun _ => h, fun _ => ⟨_, hc⟩⟩, ⟨fun _ => h, fun _ => ⟨_, hm⟩⟩, ?_, ?_, hill⟩
    · intro _
      exact ⟨_, subscript_eq_getElem? a.m_kids i h, hc, hm⟩
    · intro hge
      omega
  · have hc : a.child_const i = .assert_failed .n_lt_N := by
      unfold array.child_const
      rw [dif_neg h]
    have hm : a.child_mut i = .assert_failed .n_lt_N := by
      unfold array.child_mut
      rw [dif_neg h]
    refine ⟨⟨?_, fun hi => absurd hi h⟩, ⟨?_, fun hi => absurd hi h⟩, fun hi => absurd hi h,
      fun _ => ⟨hc, hm⟩, hill⟩
    · rintro ⟨r, hr⟩
      rw [hc] at hr
      cases hr
    · rintro ⟨r, hr⟩
      rw [hm] at hr
      cases hr

/-- C8 at the failing input: on the shape holding `[10, 20, 30]`, `child(1)`
returns `m_kids[1]`, `child(3)` fails the assertion, and `children()` is
ill-formed. -/
theorem array_child_bounds_witness :
    (∃ r, (⟨⟨[10, 20, 30], rfl⟩⟩ : array Nat 3).m_kids.elems[1]? = some r
        ∧ (⟨⟨[10, 20, 30], rfl⟩⟩ : array Nat 3).child_const 1 = .returned r
        ∧ (⟨⟨[10, 20, 30], rfl⟩⟩ : array Nat 3).child_mut 1 = .returned r)
      ∧ ((⟨⟨[10, 20, 30], rfl⟩⟩ : array Nat 3).child_const 3 = .assert_failed .n_lt_N
        ∧ (⟨⟨[10, 20, 30], rfl⟩⟩ : array Nat 3).child_mut 3 = .assert_failed .n_lt_N)
      ∧ ((⟨⟨[10, 20, 30], rfl⟩⟩ : array Nat 3).children_const
            = .ill_formed .explicit_ctor_in_copy_list_init
        ∧ (⟨⟨[10, 20, 30], rfl⟩⟩ : array Nat 3).children_mut
            = .ill_formed .explicit_ctor_in_copy_list_init) :=
  ⟨(array_child_bounds (⟨⟨[10, 20, 30], rfl⟩⟩ : array Nat 3) 1).2.2.1 (by decide),
   (array_child_bounds (⟨⟨[10, 20, 30], rfl⟩⟩ : array Nat 3) 3).2.2.2.1 (by decide),
   (array_child_bounds (⟨⟨[10, 20, 30], rfl⟩⟩ : array Nat 3) 0).2.2.2.2
     (small_ne_dynamic_extent 3 (by decide))⟩

/-- C9: for every `nullary` shape, `arity_value` and `arity()` are `0` and
`children()` is a view of length `0`, in the const and the non-const overload. -/
theorem nullary_arity_children {P : Type} (s : nullary P) :
    nullary.arity_value = 0 ∧ s.arity = 0 ∧ s.arity = nullary.arity_value
      ∧ s.children_const = [] ∧ s.children_mut = []
      ∧ s.children_const.length = 0 ∧ s.children_mut.length = 0 :=
  ⟨rfl, rfl, rfl, rfl, rfl, rfl, rfl⟩

/-- C10: a `unary` shape constructed with the reference `r` satisfies
`child() = child(0) = r` (both overloads), and on every `unary` shape the
no-argument `child()` returns a reference: it never fails the bounds assertion. -/
theorem unary_child_of_ctor {P : Type} (storage : std_array P 1) (r : P) :
    (∃ u : unary P, unary.ctor storage r = .returned u
        ∧ u.child_const = .returned r ∧ u.toarray.child_const 0 = .returned r
        ∧ u.child_mut = .returned r ∧ u.toarray.child_mut 0 = .returned r)
      ∧ ∀ u : unary P, (∃ v, u.child_const = .returned v)
          ∧ (∃ v, u.child_mut = .returned v)
          ∧ u.child_const = u.toarray.child_const 0
          ∧ u.child_mut = u.toarray.child_mut 0 := by
  constructor
  · refine ⟨⟨⟨std_copy [r] storage 0⟩⟩, ?_, ?_⟩
    · unfold unary.ctor
      rw [array_ctor_returned 1 storage [r] rfl]
    · have he : (std_copy [r] storage 0).elems = [r] := std_copy_full [r] storage rfl
      have hs : (std_copy [r] storage 0).subscript 0 (by decide) = r := by
        unfold std_array.subscript
        rw [List.get_eq_getElem]
        simp [he]
      simp only [unary.child_const, unary.child_mut, array.child_const, array.child_mut]
      simp [hs]
  · intro u
    refine ⟨?_, ?_, rfl, rfl⟩
    · exact ⟨_, array_child_const_lt u.toarray 0 (by decide)⟩
    · exact ⟨_, array_child_mut_lt u.toarray 0 (by decide)⟩

/-! ## Testing and casting -/

theorem is_eq_true_iff {κ P : Type} [DecidableEq κ] (T : NodeType κ) (n : Node κ P) :
    is T n = true ↔ n.kind = T.this_kind := by
  unfold is
  exact decide_eq_true_iff

theorem is_eq_false_iff {κ P : Type} [DecidableEq κ] (T : NodeType κ) (n : Node κ P) :
    is T n = false ↔ n.kind ≠ T.this_kind := by
  unfold is
  exact decide_eq_false_iff_not

/-- C2: `is<T>(n)` is true if and only if `n.kind()` equals `T::this_kind`,
where `this_kind` of `kind_of<K>` is `K`.  In particular, for a node whose
kind is `K`, `is<T>(n)` is true for every `T` declaring kind `K` and false
for every `U` declaring another kind. -/
theorem is_iff_kind {κ P : Type} [DecidableEq κ] (T : NodeType κ) (n : Node κ P) :
    (is T n = true ↔ n.kind = T.this_kind)
      ∧ (is T n = false ↔ n.kind ≠ T.this_kind)
      ∧ T.this_kind = T.K
      ∧ (∀ k : κ, kind_of.this_kind k = k)
      ∧ ∀ K : κ, n.kind = K →
          (∀ T1 : NodeType κ, T1.this_kind = K → is T1 n = true)
            ∧ (∀ U : NodeType κ, U.this_kind ≠ K → is U n = false) := by
  refine ⟨is_eq_true_iff T n, is_eq_false_iff T n, rfl, fun _ => rfl, ?_⟩
  intro K hK
  constructor
  · intro T1 h1
    exact (is_eq_true_iff T1 n).2 (hK.trans h1.symm)
  · intro U hU
    exact (is_eq_false_iff U n).2 (fun h => hU (h.symm.trans hK))

/-- Instance of C2: a node of kind `1` is an `ex_Ternary1` and is not an `ex_Binary`. -/
theorem is_iff_kind_witness :
    ex_ternary1_node.kind = 1
      ∧ is ex_Ternary1 ex_ternary1_node = true
      ∧ is ex_Binary ex_ternary1_node = false :=
  ⟨rfl,
   ((is_iff_kind ex_Ternary1 ex_ternary1_node).2.2.2.2 1 rfl).1 ex_Ternary1 rfl,
   ((is_iff_kind ex_Ternary1 ex_ternary1_node).2.2.2.2 1 rfl).2 ex_Binary (by decide)⟩

/-- C3: when `is<U>(n)` is false, `maybe_cast<U>(n)` is the null pointer, in
the const and in the non-const overload.  No call of `maybe_cast` stops at an
assertion: every call returns, either the null pointer or a pointer to `n`. -/
theorem maybe_cast_absent {κ P : Type} [DecidableEq κ] (U : NodeType κ) (n : Node κ P) :
    (is U n = false → maybe_cast_const U n = none ∧ maybe_cast_mut U n = none)
      ∧ (maybe_cast_const U n = none ∨ maybe_cast_const U n = some (static_cast U n))
      ∧ (maybe_cast_mut U n = none ∨ maybe_cast_mut U n = some (static_cast U n)) := by
  unfold maybe_cast_const maybe_cast_mut
  cases h : is U n <;> simp

/-- Instance of C3: `maybe_cast` to `ex_Binary` of a node of kind `1` is null. -/
theorem maybe_cast_absent_witness :
    is ex_Binary ex_ternary1_node = false
      ∧ maybe_cast_const ex_Binary ex_ternary1_node = none
      ∧ maybe_cast_mut ex_Binary ex_ternary1_node = none :=
  ⟨rfl, (maybe_cast_absent ex_Binary ex_ternary1_node).1 rfl⟩

theorem dyn_eq_of_is {κ P : Type} [DecidableEq κ] (family : List (NodeType κ))
    (huniq : ∀ A ∈ family, ∀ B ∈ family, A.this_kind = B.this_kind → A = B)
    (T : NodeType κ) (n : Node κ P) (hT : T ∈ family) (hn : n.dyn ∈ family)
    (hkind : n.kind = n.dyn.this_kind) (his : is T n = true) : n.dyn = T :=
  huniq n.dyn hn T hT (hkind.symm.trans ((is_eq_true_iff T n).1 his))

/-- C4: in a node family as the spec defines it (its concrete types declare
pairwise different kinds, and `kind()` of a node returns the kind its concrete
type declares), when `is<T>(n)` is true, `cast<T>(n)` and `maybe_cast<T>(n)`
(both overloads) succeed and yield a pointer to the same node `n`, whose
concrete type is `T`; `arity()`, `children()` and `child(i)` through the
result have the results they have on `n`. -/
theorem cast_same_node {κ P : Type} [DecidableEq κ] (family : List (NodeType κ))
    (huniq : ∀ A ∈ family, ∀ B ∈ family, A.this_kind = B.this_kind → A = B)
    (T : NodeType κ) (n : Node κ P) (hT : T ∈ family) (hn : n.dyn ∈ family)
    (hkind : n.kind = n.dyn.this_kind) (his : is T n = true) :
    cast_const T n = .returned (static_cast T n)
      ∧ cast_mut T n = .returned (static_cast T n)
      ∧ maybe_cast_const T n = some (static_cast T n)
      ∧ maybe_cast_mut T n = some (static_cast T n)
      ∧ (static_cast T n).target = n
      ∧ ∃ h : n.dyn = T,
          (static_cast T n).arity = n.shape.arity
            ∧ ((static_cast T n).shape h).arity = n.shape.arity
            ∧ ((static_cast T n).shape h).children_const = n.shape.children_const
            ∧ ((static_cast T n).shape h).children_mut = n.shape.children_mut
            ∧ ∀ i, ((static_cast T n).shape h).child_const i = n.shape.child_const i
                ∧ ((static_cast T n).shape h).child_mut i = n.shape.child_mut i := by
  have hd : n.dyn = T := dyn_eq_of_is family huniq T n hT hn hkind his
  refine ⟨?_, ?_, ?_, ?_, rfl, hd, ?_⟩
  · unfold cast_const
    rw [if_pos his]
  · unfold cast_mut
    rw [if_pos his]
  · unfold maybe_cast_const
    rw [if_pos his]
  · unfold maybe_cast_mut
    rw [if_pos his]
  · subst hd
    exact ⟨rfl, rfl, rfl, rfl, fun _ => ⟨rfl, rfl⟩⟩

/-- Instance of C4: the family of `ex_Binary` (kind `0`) and `ex_Ternary1`
(kind `1`); casting the node of type `ex_Ternary1` to `ex_Ternary1`. -/
theorem cast_same_node_witness :
    (∀ A ∈ [ex_Binary, ex_Ternary1], ∀ B ∈ [ex_Binary, ex_Ternary1],
        A.this_kind = B.this_kind → A = B)
      ∧ ex_Ternary1 ∈ [ex_Binary, ex_Ternary1]
      ∧ ex_ternary1_node.dyn ∈ [ex_Binary, ex_Ternary1]
      ∧ ex_ternary1_node.kind = ex_ternary1_node.dyn.this_kind
      ∧ is ex_Ternary1 ex_ternary1_node = true
      ∧ cast_const ex_Ternary1 ex_ternary1_node
          = .returned (static_cast ex_Ternary1 ex_ternary1_node)
      ∧ maybe_cast_const ex_Ternary1 ex_ternary1_node
          = some (static_cast ex_Ternary1 ex_ternary1_node)
      ∧ (static_cast ex_Ternary1 ex_ternary1_node).target = ex_ternary1_node
      ∧ (static_cast ex_Ternary1 ex_ternary1_node).arity = ex_ternary1_node.shape.arity
      ∧ ((static_cast ex_Ternary1 ex_ternary1_node).shape rfl).child_const 2
          = ex_ternary1_node.shape.child_const 2 :=
  ⟨by decide, by decide, by decide, rfl, rfl,
   (cast_same_node [ex_Binary, ex_Ternary1] (by decide) ex_Ternary1 ex_ternary1_node
      (by decide) (by decide) rfl rfl).1,
   (cast_same_node [ex_Binary, ex_Ternary1] (by decide) ex_Ternary1 ex_ternary1_node
      (by decide) (by decide) rfl rfl).2.2.1,
   (cast_same_node [ex_Binary, ex_Ternary1] (by decide) ex_Ternary1 ex_ternary1_node
      (by decide) (by decide) rfl rfl).2.2.2.2.1,
   (match (cast_same_node [ex_Binary, ex_Ternary1] (by decide) ex_Ternary1 ex_ternary1_node
      (by decide) (by decide) rfl rfl).2.2.2.2.2 with
    | ⟨_, ha, _⟩ => ha),
   (match (cast_same_node [ex_Binary, ex_Ternary1] (by decide) ex_Ternary1 ex_ternary1_node
      (by decide) (by decide) rfl rfl).2.2.2.2.2 with
    | ⟨_, _, _, _, _, hc⟩ => (hc 2).1)⟩

/-- C5: `cast<T>(n)` (either overload) fails its assertion if and only if
`is<T>(n)` is false, and returns the pointer to `n` if and only if `is<T>(n)`
is true; these are its only results, so it never returns a null pointer. -/
theorem cast_fails_iff {κ P : Type} [DecidableEq κ] (T : NodeType κ) (n : Node κ P) :
    (cast_const T n = .assert_failed .is_T_u ↔ is T n = false)
      ∧ (cast_const T n = .returned (static_cast T n) ↔ is T n = true)
      ∧ (cast_mut T n = .assert_failed .is_T_u ↔ is T n = false)
      ∧ (cast_mut T n = .returned (static_cast T n) ↔ is T n = true) := by
  unfold cast_const cast_mut
  cases h : is T n <;> simp

/-! ## Lemmas on the named constructors -/

theorem unary_ctor_returned {P : Type} (storage : std_array P 1) (a : P) :
    unary.ctor storage a = .returned ⟨⟨std_copy [a] storage 0⟩⟩ := by
  unfold unary.ctor
  rw [array_ctor_returned 1 storage [a] rfl]

theorem binary_ctor_returned {P : Type} (storage : std_array P 2) (a b : P) :
    binary.ctor storage a b = .returned ⟨⟨std_copy [a, b] storage 0⟩⟩ := by
  unfold binary.ctor
  rw [array_ctor_returned 2 storage [a, b] rfl]

theorem ternary_ctor_returned {P : Type} (storage : std_array P 3) (a b c : P) :
    ternary.ctor storage a b c = .returned ⟨⟨std_copy [a, b, c] storage 0⟩⟩ := by
  unfold ternary.ctor
  rw [array_ctor_returned 3 storage [a, b, c] rfl]

/-! ## The mutable view -/

/-- C11, as the code behaves: on every `array<T, N>` the non-const
`children()` is ill-formed, so there is no mutable view through which position
`i` could be replaced by `r`: the statement `a.children()[i] = r` does not
compile.  `arity()` is `N`. -/
theorem children_mut_no_view {P : Type} {N : Nat} (a : array P N)
    (hN : N ≠ dynamic_extent) :
    a.children_mut = .ill_formed .explicit_ctor_in_copy_list_init
      ∧ (∀ view : List P, a.children_mut ≠ .well_formed view)
      ∧ a.arity = N := by
  have h : a.children_mut = .ill_formed .explicit_ctor_in_copy_list_init :=
    return_braced_span_static N hN _ N
  refine ⟨h, ?_, rfl⟩
  intro view hv
  rw [h] at hv
  cases hv

/-- C11 at the failing input: the shape holding `[10, 20, 30]`. -/
theorem children_mut_no_view_witness :
    3 ≠ dynamic_extent
      ∧ (⟨⟨[10, 20, 30], rfl⟩⟩ : array Nat 3).children_mut
          = .ill_formed .explicit_ctor_in_copy_list_init
      ∧ (∀ view : List Nat,
          (⟨⟨[10, 20, 30], rfl⟩⟩ : array Nat 3).children_mut ≠ .well_formed view)
      ∧ (⟨⟨[10, 20, 30], rfl⟩⟩ : array Nat 3).arity = 3 :=
  ⟨small_ne_dynamic_extent 3 (by decide),
   children_mut_no_view (⟨⟨[10, 20, 30], rfl⟩⟩ : array Nat 3)
     (small_ne_dynamic_extent 3 (by decide))⟩

/-! ## The concepts -/

theorem array_k_tree_of_some (S : TypeDecl) (v M : Nat) (h : S.arity_value = some v) :
    array_k_tree S M = true ↔ v = M := by
  unfold array_k_tree array_tree
  rw [h]
  simp

/-- C12: for every type `S` that declares `arity_value`, `array_tree<S>`
holds, `array_k_tree<S, M>` holds iff `S::arity_value = M`, and `leaf_tree<S>`
holds iff `S::arity_value = 0`.  Hence `nullary` is a leaf, and `unary`,
`binary`, `ternary` satisfy `array_k_tree` for exactly `M = 1, 2, 3` and are
not leaves. -/
theorem shape_predicates_exact (S : TypeDecl) (v : Nat) (h : S.arity_value = some v)
    (M : Nat) :
    array_tree S = true
      ∧ (array_k_tree S M = true ↔ v = M)
      ∧ (leaf_tree S = true ↔ v = 0)
      ∧ leaf_tree nullary.decl = true
      ∧ (array_k_tree unary.decl M = true ↔ M = 1)
      ∧ (array_k_tree binary.decl M = true ↔ M = 2)
      ∧ (array_k_tree ternary.decl M = true ↔ M = 3)
      ∧ leaf_tree unary.decl = false
      ∧ leaf_tree binary.decl = false
      ∧ leaf_tree ternary.decl = false := by
  refine ⟨?_, array_k_tree_of_some S v M h, array_k_tree_of_some S v 0 h, rfl,
    ?_, ?_, ?_, rfl, rfl, rfl⟩
  · unfold array_tree
    rw [h]
    rfl
  · rw [array_k_tree_of_some unary.decl 1 M rfl]
    exact eq_comm
  · rw [array_k_tree_of_some binary.decl 2 M rfl]
    exact eq_comm
  · rw [array_k_tree_of_some ternary.decl 3 M rfl]
    exact eq_comm

/-- Instance of C12: `array<T, 5>` is an array tree of arity exactly `5`. -/
theorem shape_predicates_exact_witness :
    (array.decl 5).arity_value = some 5
      ∧ array_tree (array.decl 5) = true
      ∧ (array_k_tree (array.decl 5) 5 = true ↔ 5 = 5)
      ∧ (leaf_tree (array.decl 5) = true ↔ 5 = 0) :=
  ⟨rfl,
   (shape_predicates_exact (array.decl 5) 5 rfl 5).1,
   (shape_predicates_exact (array.decl 5) 5 rfl 5).2.1,
   (shape_predicates_exact (array.decl 5) 5 rfl 5).2.2.1⟩

/-! ## Kinds and concrete types -/

/-- C13: in a node family as the spec defines it (its concrete types declare
pairwise different kinds, and `kind()` of a node returns the kind its concrete
type declares), if `is<T>(n)` holds then the concrete type of `n` is `T`: the
pointer returned by `cast<T>` and `maybe_cast<T>` has the node's concrete
type as its static type. -/
theorem is_concrete_type {κ P : Type} [DecidableEq κ] (family : List (NodeType κ))
    (huniq : ∀ A ∈ family, ∀ B ∈ family, A.this_kind = B.this_kind → A = B)
    (T : NodeType κ) (n : Node κ P) (hT : T ∈ family) (hn : n.dyn ∈ family)
    (hkind : n.kind = n.dyn.this_kind) (his : is T n = true) :
    n.dyn = T
      ∧ (static_cast T n).target.dyn = (static_cast T n).static_type
      ∧ cast_const T n = .returned (static_cast T n)
      ∧ cast_mut T n = .returned (static_cast T n)
      ∧ maybe_cast_const T n = some (static_cast T n)
      ∧ maybe_cast_mut T n = some (static_cast T n) := by
  have hk : n.kind = T.this_kind := (is_eq_true_iff T n).1 his
  have hd : n.dyn = T := huniq n.dyn hn T hT (hkind.symm.trans hk)
  refine ⟨hd, hd, ?_, ?_, ?_, ?_⟩
  · unfold cast_const
    rw [if_pos his]
  · unfold cast_mut
    rw [if_pos his]
  · unfold maybe_cast_const
    rw [if_pos his]
  · unfold maybe_cast_mut
    rw [if_pos his]

/-- Instance of C13: the family of `ex_Binary` (kind `0`) and
`ex_Ternary1` (kind `1`), and the node of type `ex_Ternary1`. -/
theorem is_concrete_type_witness :
    (∀ A ∈ [ex_Binary, ex_Ternary1], ∀ B ∈ [ex_Binary, ex_Ternary1],
        A.this_kind = B.this_kind → A = B)
      ∧ ex_Ternary1 ∈ [ex_Binary, ex_Ternary1]
      ∧ ex_ternary1_node.dyn ∈ [ex_Binary, ex_Ternary1]
      ∧ ex_ternary1_node.kind = ex_ternary1_node.dyn.this_kind
      ∧ is ex_Ternary1 ex_ternary1_node = true
      ∧ ex_ternary1_node.dyn = ex_Ternary1 :=
  ⟨by decide, by decide, by decide, rfl, rfl,
   (is_concrete_type [ex_Binary, ex_Ternary1] (by decide) ex_Ternary1 ex_ternary1_node
      (by decide) (by decide) rfl rfl).1⟩

/-- C14: in a family where the binary and the ternary type declare different
kinds, for the ternary node constructed with `(a, b, c)` and held through the
common node interface, `maybe_cast<Binary>` is null and `maybe_cast<Ternary>`
is a pointer to the node through which `child(2)` is `c` (both overloads). -/
theorem maybe_cast_ternary {κ P : Type} [DecidableEq κ] (idB idT : Nat) (KB KT : κ)
    (hne : KB ≠ KT) (storage : std_array P 3) (a b c : P) :
    ∃ t : ternary P, ternary.ctor storage a b c = .returned t
      ∧ maybe_cast_const (binary_type idB KB) (ternary_node idT KT t) = none
      ∧ maybe_cast_mut (binary_type idB KB) (ternary_node idT KT t) = none
      ∧ maybe_cast_const (ternary_type idT KT) (ternary_node idT KT t)
          = some (static_cast (ternary_type idT KT) (ternary_node idT KT t))
      ∧ maybe_cast_mut (ternary_type idT KT) (ternary_node idT KT t)
          = some (static_cast (ternary_type idT KT) (ternary_node idT KT t))
      ∧ ((static_cast (ternary_type idT KT) (ternary_node idT KT t)).shape rfl).child_const 2
          = .returned c
      ∧ ((static_cast (ternary_type idT KT) (ternary_node idT KT t)).shape rfl).child_mut 2
          = .returned c := by
  refine ⟨⟨⟨std_copy [a, b, c] storage 0⟩⟩, ternary_ctor_returned storage a b c, ?_⟩
  have hB : ∀ t : ternary P, is (binary_type idB KB) (ternary_node idT KT t) = false := by
    intro t
    rw [is_eq_false_iff]
    exact fun h => hne h.symm
  have hT : ∀ t : ternary P, is (ternary_type idT KT) (ternary_node idT KT t) = true := by
    intro t
    rw [is_eq_true_iff]
    rfl
  have he : (std_copy [a, b, c] storage 0).elems = [a, b, c] :=
    std_copy_full [a, b, c] storage rfl
  have hs : (std_copy [a, b, c] storage 0).subscript 2 (by decide) = c := by
    apply subscript_of_elems
    rw [he]
    rfl
  refine ⟨?_, ?_, ?_, ?_, ?_, ?_⟩
  · unfold maybe_cast_const
    rw [hB]
    rfl
  · unfold maybe_cast_mut
    rw [hB]
    rfl
  · unfold maybe_cast_const
    rw [hT]
    rfl
  · unfold maybe_cast_mut
    rw [hT]
    rfl
  · exact (array_child_const_lt (N := 3) ⟨std_copy [a, b, c] storage 0⟩ 2 (by decide)).trans
      (congrArg Outcome.returned hs)
  · exact (array_child_mut_lt (N := 3) ⟨std_copy [a, b, c] storage 0⟩ 2 (by decide)).trans
      (congrArg Outcome.returned hs)

/-- Instance of C14: binary kind `0`, ternary kind `1`, children `11, 12, 13`. -/
theorem maybe_cast_ternary_witness :
    (0 : Nat) ≠ 1
      ∧ ∃ t : ternary Nat, ternary.ctor ⟨[0, 0, 0], rfl⟩ 11 12 13 = .returned t
        ∧ maybe_cast_const (binary_type 2 0) (ternary_node 4 1 t) = none
        ∧ maybe_cast_mut (binary_type 2 0) (ternary_node 4 1 t) = none
        ∧ maybe_cast_const (ternary_type 4 1) (ternary_node 4 1 t)
            = some (static_cast (ternary_type 4 1) (ternary_node 4 1 t))
        ∧ maybe_cast_mut (ternary_type 4 1) (ternary_node 4 1 t)
            = some (static_cast (ternary_type 4 1) (ternary_node 4 1 t))
        ∧ ((static_cast (ternary_type 4 1) (ternary_node 4 1 t)).shape rfl).child_const 2
            = .returned 13
        ∧ ((static_cast (ternary_type 4 1) (ternary_node 4 1 t)).shape rfl).child_mut 2
            = .returned 13 :=
  ⟨by decide, maybe_cast_ternary 2 4 0 1 (by decide) ⟨[0, 0, 0], rfl⟩ 11 12 13⟩

/-! ## The named constructors -/

/-- C15, as the code behaves: `unary(a)`, `binary(a, b)` and
`ternary(a, b, c)` never fail the arity assertion of the `array` constructor,
whatever the initial storage: they return shapes of arity 1, 2 and 3 whose
`m_kids` hold `[a]`, `[a, b]` and `[a, b, c]`, and `child(0)`, `child(1)` of
the binary shape are its first and second argument.  `children()` cannot be
called on any of them: it is ill-formed, in both overloads. -/
theorem named_ctors_shapes {P : Type} (s1 : std_array P 1) (s2 : std_array P 2)
    (s3 : std_array P 3) (a b c : P) :
    (∃ u : unary P, unary.ctor s1 a = .returned u
        ∧ u.toarray.arity = 1 ∧ u.toarray.m_kids.elems = [a]
        ∧ u.toarray.children_const = .ill_formed .explicit_ctor_in_copy_list_init
        ∧ u.toarray.children_mut = .ill_formed .explicit_ctor_in_copy_list_init)
      ∧ (∃ v : binary P, binary.ctor s2 a b = .returned v
          ∧ v.toarray.arity = 2 ∧ v.toarray.m_kids.elems = [a, b]
          ∧ v.toarray.child_const 0 = .returned a ∧ v.toarray.child_const 1 = .returned b
          ∧ v.toarray.children_const = .ill_formed .explicit_ctor_in_copy_list_init
          ∧ v.toarray.children_mut = .ill_formed .explicit_ctor_in_copy_list_init)
      ∧ (∃ w : ternary P, ternary.ctor s3 a b c = .returned w
          ∧ w.toarray.arity = 3 ∧ w.toarray.m_kids.elems = [a, b, c]
          ∧ w.toarray.children_const = .ill_formed .explicit_ctor_in_copy_list_init
          ∧ w.toarray.children_mut = .ill_formed .explicit_ctor_in_copy_list_init)
      ∧ unary.ctor s1 a ≠ .assert_failed .list_size_eq_N
      ∧ binary.ctor s2 a b ≠ .assert_failed .list_size_eq_N
      ∧ ternary.ctor s3 a b c ≠ .assert_failed .list_size_eq_N := by
  have h1 : (std_copy [a] s1 0).elems = [a] := std_copy_full [a] s1 rfl
  have h2 : (std_copy [a, b] s2 0).elems = [a, b] := std_copy_full [a, b] s2 rfl
  have h3 : (std_copy [a, b, c] s3 0).elems = [a, b, c] := std_copy_full [a, b, c] s3 rfl
  have hs0 : (std_copy [a, b] s2 0).subscript 0 (by decide) = a := by
    apply subscript_of_elems
    rw [h2]
    rfl
  have hs1 : (std_copy [a, b] s2 0).subscript 1 (by decide) = b := by
    apply subscript_of_elems
    rw [h2]
    rfl
  have e1 := small_ne_dynamic_extent 1 (by decide)
  have e2 := small_ne_dynamic_extent 2 (by decide)
  have e3 := small_ne_dynamic_extent 3 (by decide)
  refine ⟨⟨⟨⟨std_copy [a] s1 0⟩⟩, unary_ctor_returned s1 a, rfl, h1,
      return_braced_span_static 1 e1 _ 1, return_braced_span_static 1 e1 _ 1⟩,
    ⟨⟨⟨std_copy [a, b] s2 0⟩⟩, binary_ctor_returned s2 a b, rfl, h2, ?_, ?_,
      return_braced_span_static 2 e2 _ 2, return_braced_span_static 2 e2 _ 2⟩,
    ⟨⟨⟨std_copy [a, b, c] s3 0⟩⟩, ternary_ctor_returned s3 a b c, rfl, h3,
      return_braced_span_static 3 e3 _ 3, return_braced_span_static 3 e3 _ 3⟩,
    ?_, ?_, ?_⟩
  · exact (array_child_const_lt (N := 2) ⟨std_copy [a, b] s2 0⟩ 0 (by decide)).trans
      (congrArg Outcome.returned hs0)
  · exact (array_child_const_lt (N := 2) ⟨std_copy [a, b] s2 0⟩ 1 (by decide)).trans
      (congrArg Outcome.returned hs1)
  · rw [unary_ctor_returned]
    exact fun h => Outcome.noConfusion h
  · rw [binary_ctor_returned]
    exact fun h => Outcome.noConfusion h
  · rw [ternary_ctor_returned]
    exact fun h => Outcome.noConfusion h

/-! ## The const and the non-const overloads -/

/-- C16: the const and the non-const overloads of `children()`, `child(i)`,
`cast<T>` and `maybe_cast<T>` have the same result on every shape, index,
target type and node: they return on the same inputs, with the same child
references or the same node, and fail the same assertion on the others. -/
theorem overloads_agree {κ P : Type} [DecidableEq κ] {N : Nat} (a : array P N) (i : Nat)
    (s : nullary P) (u : unary P) (T : NodeType κ) (n : Node κ P) :
    a.children_const = a.children_mut
      ∧ a.child_const i = a.child_mut i
      ∧ ((∃ r, a.child_const i = .returned r) ↔ ∃ r, a.child_mut i = .returned r)
      ∧ s.children_const = s.children_mut
      ∧ u.child_const = u.child_mut
      ∧ cast_const T n = cast_mut T n
      ∧ ((∃ r, cast_const T n = .returned r) ↔ ∃ r, cast_mut T n = .returned r)
      ∧ maybe_cast_const T n = maybe_cast_mut T n
      ∧ (maybe_cast_const T n = none ↔ maybe_cast_mut T n = none) :=
  ⟨rfl, rfl, Iff.rfl, rfl, rfl, rfl, Iff.rfl, rfl, Iff.rfl⟩

end Structure
